import Mathlib

/-!
Verification of the mlx5 manual-trigger example
(libibverbs/examples/mlx5dv_manual_trigger.c): a shallow embedding of the
completion-queue consumer (manual_poll_cq) and the send-queue poster
(local_write), with theorems about the ownership/polarity logic, the
doorbell discipline, the descriptor construction and the trigger-offset
alternation.
-/

namespace ManualTrigger

/-- Modelled from the spec: the host is little-endian (the example runs on
x86), so the htobe32/be32toh conversions from endian.h, which are not part
of the example source, are byte reversals of a 32-bit word. This function
reverses the four bytes of a 32-bit value. -/
def byteswap32 (x : Nat) : Nat :=
  x % 256 * 16777216 + x / 256 % 256 * 65536 + x / 65536 % 256 * 256 +
    x / 16777216 % 256

/-- Modelled from the spec: htobe32 from endian.h on a little-endian host.
The inner reduction modulo 2^32 models the uint32 argument type. -/
def htobe32 (x : Nat) : Nat := byteswap32 (x % 4294967296)

/-- Modelled from the spec: be32toh from endian.h on a little-endian host. -/
def be32toh (x : Nat) : Nat := byteswap32 (x % 4294967296)

/-- Modelled from the spec: 64-bit byte reversal, expressed through the
32-bit one (the low 32-bit half byte-swapped becomes the high half). -/
def byteswap64 (x : Nat) : Nat :=
  byteswap32 (x % 4294967296) * 4294967296 + byteswap32 (x / 4294967296 % 4294967296)

/-- Modelled from the spec: htobe64 from endian.h on a little-endian host. -/
def htobe64 (x : Nat) : Nat := byteswap64 (x % 18446744073709551616)

/-- Modelled from the spec: be64toh from endian.h on a little-endian host. -/
def be64toh (x : Nat) : Nat := byteswap64 (x % 18446744073709551616)

/-! CQE opcode constants. The numeric values are stated in the example
source's own comments (MLX5_CQE_REQ (0), MLX5_CQE_RESP_WR_IMM (1),
MLX5_CQE_RESP_SEND (2), MLX5_CQE_RESP_SEND_IMM (3), MLX5_CQE_REQ_ERR (13),
MLX5_CQE_RESP_ERR (14), MLX5_CQE_INVALID (15)). -/

def MLX5_CQE_REQ : Nat := 0
def MLX5_CQE_RESP_WR_IMM : Nat := 1
def MLX5_CQE_RESP_SEND : Nat := 2
def MLX5_CQE_RESP_SEND_IMM : Nat := 3
def MLX5_CQE_REQ_ERR : Nat := 13
def MLX5_CQE_RESP_ERR : Nat := 14
def MLX5_CQE_INVALID : Nat := 15

/-! Modelled from the spec: the send opcode constants and the
completion-request flag come from the mlx5 interface header
(infiniband/mlx5dv.h), which is repository code not included under src/.
MLX5_WQE_CTRL_CQ_UPDATE is the completion-request flag bit (2 << 2). -/

def MLX5_OPCODE_RDMA_WRITE : Nat := 8
def MLX5_OPCODE_RDMA_WRITE_IMM : Nat := 9
def MLX5_OPCODE_SEND : Nat := 10
def MLX5_OPCODE_SEND_IMM : Nat := 11
def MLX5_OPCODE_SEND_INVAL : Nat := 1
def MLX5_OPCODE_RDMA_READ : Nat := 16
def MLX5_WQE_CTRL_CQ_UPDATE : Nat := 8

/-! Work-completion constants from the verbs interface (values from
enum ibv_wc_status / ibv_wc_opcode / ibv_wc_flags). -/

def IBV_WC_SUCCESS : Nat := 0
def IBV_WC_GENERAL_ERR : Nat := 21
def IBV_WC_SEND : Nat := 0
def IBV_WC_RDMA_WRITE : Nat := 1
def IBV_WC_RDMA_READ : Nat := 2
def IBV_WC_RECV : Nat := 128
def IBV_WC_RECV_RDMA_WITH_IMM : Nat := 129
def IBV_WC_WITH_IMM : Nat := 2

/-- A 64-byte completion-queue entry, as read back from ring memory.
Fields hold the raw 32-bit words as a little-endian host load would see
them (the hardware stores them big-endian, hence the be32toh conversions
in the decoder). Field names follow struct mlx5_cqe64; op_own packs the
opcode in its high nibble and the ownership bit in bit 0 (the
mlx5dv_get_cqe_opcode / mlx5dv_get_cqe_owner accessors). -/
structure Mlx5Cqe64 where
  op_own : Nat
  sop_drop_qpn : Nat
  byte_cnt : Nat
  imm_inval_pkey : Nat
  deriving DecidableEq

/-- Modelled from the spec: mlx5dv_get_cqe_opcode extracts the high nibble
of the op_own byte. -/
def mlx5dv_get_cqe_opcode (c : Mlx5Cqe64) : Nat := c.op_own % 256 / 16

/-- Modelled from the spec: mlx5dv_get_cqe_owner extracts bit 0 of the
op_own byte (MLX5_CQE_OWNER_MASK = 1). -/
def mlx5dv_get_cqe_owner (c : Mlx5Cqe64) : Nat := c.op_own &&& 1

/-- The expected ownership polarity computed by manual_poll_cq,
line 329 of the example: !!(res->cq_cons_index & res->mlx5dv_cq.cqe_cnt). -/
def expected_owner (cons_index cqe_cnt : Nat) : Nat :=
  if cons_index &&& cqe_cnt ≠ 0 then 1 else 0

/-- The completion-ring geometry obtained from mlx5dv_init_obj:
base address, entry count (a power of two) and entry size (64 or 128). -/
structure Mlx5dvCq where
  buf : Nat
  cqe_cnt : Nat
  cqe_size : Nat
  deriving DecidableEq

/-- The byte address of the struct mlx5_cqe64 record that manual_poll_cq
reads for a given consumer index (lines 292-301): slot address
buf + (cons_index & (cqe_cnt-1)) * cqe_size, plus 64 when the entry size
is not 64 (128-byte entries keep the record in the second half). -/
def cqe64_addr (cq : Mlx5dvCq) (cons_index : Nat) : Nat :=
  let cqe_idx := cons_index &&& (cq.cqe_cnt - 1)
  let cqe := cq.buf + cqe_idx * cq.cqe_size
  if cq.cqe_size = 64 then cqe else cqe + 64

/-- The mutable software state of the completion reader: the consumer
index (a uint32) and the doorbell word dbrec[MLX5_CQ_SET_CI]. -/
structure PollState where
  cq_cons_index : Nat
  dbrec_ci : Nat
  deriving DecidableEq

/-- The ibv_wc fields that manual_poll_cq writes (all others stay at the
memset value 0, which is also the default here). -/
structure IbvWc where
  status : Nat := 0
  opcode : Nat := 0
  wc_flags : Nat := 0
  byte_len : Nat := 0
  imm_data : Nat := 0
  qp_num : Nat := 0
  deriving DecidableEq

/-- The decode performed by manual_poll_cq lines 348-415: qp_num and
byte_len are filled unconditionally before the opcode switch; the switch
then classifies the completion (returning none models the default branch
that returns 0, skipping the record). -/
def decode_wc (opcode : Nat) (c : Mlx5Cqe64) : Option IbvWc :=
  let base : IbvWc :=
    { qp_num := be32toh c.sop_drop_qpn &&& 0xffffff
      byte_len := be32toh c.byte_cnt }
  if opcode = MLX5_CQE_REQ then
    let sub := be32toh c.sop_drop_qpn / 16777216
    if sub = MLX5_OPCODE_RDMA_WRITE ∨ sub = MLX5_OPCODE_RDMA_WRITE_IMM then
      some { base with
              opcode := IBV_WC_RDMA_WRITE
              wc_flags := if sub = MLX5_OPCODE_RDMA_WRITE_IMM
                          then base.wc_flags ||| IBV_WC_WITH_IMM else base.wc_flags
              status := IBV_WC_SUCCESS }
    else if sub = MLX5_OPCODE_SEND ∨ sub = MLX5_OPCODE_SEND_IMM ∨
            sub = MLX5_OPCODE_SEND_INVAL then
      some { base with
              opcode := IBV_WC_SEND
              wc_flags := if sub = MLX5_OPCODE_SEND_IMM
                          then base.wc_flags ||| IBV_WC_WITH_IMM else base.wc_flags
              status := IBV_WC_SUCCESS }
    else if sub = MLX5_OPCODE_RDMA_READ then
      some { base with opcode := IBV_WC_RDMA_READ, status := IBV_WC_SUCCESS }
    else
      some { base with opcode := IBV_WC_SEND, status := IBV_WC_SUCCESS }
  else if opcode = MLX5_CQE_RESP_SEND then
    some { base with opcode := IBV_WC_RECV, status := IBV_WC_SUCCESS }
  else if opcode = MLX5_CQE_RESP_SEND_IMM then
    some { base with
            opcode := IBV_WC_RECV
            wc_flags := base.wc_flags ||| IBV_WC_WITH_IMM
            imm_data := be32toh c.imm_inval_pkey
            status := IBV_WC_SUCCESS }
  else if opcode = MLX5_CQE_RESP_WR_IMM then
    some { base with
            opcode := IBV_WC_RECV_RDMA_WITH_IMM
            wc_flags := base.wc_flags ||| IBV_WC_WITH_IMM
            imm_data := be32toh c.imm_inval_pkey
            status := IBV_WC_SUCCESS }
  else if opcode = MLX5_CQE_REQ_ERR ∨ opcode = MLX5_CQE_RESP_ERR then
    some { base with status := IBV_WC_GENERAL_ERR }
  else
    none

/-- manual_poll_cq (lines 279-435), the single-attempt completion
consumer. Ring memory is a map from byte addresses to cqe64 records.
Returns the decoded completion (none when the function returns 0) and the
updated software state: on the invalid-opcode pre-check, on an ownership
mismatch and on an unrecognized opcode the state is returned untouched;
on a consumed record the consumer index is incremented (uint32 wrap) and
the doorbell word receives htobe32(index & 0xffffff). -/
def manual_poll_cq (cq : Mlx5dvCq) (mem : Nat → Mlx5Cqe64) (st : PollState) :
    Option IbvWc × PollState :=
  let cqe64 := mem (cqe64_addr cq st.cq_cons_index)
  let opcode := mlx5dv_get_cqe_opcode cqe64
  if opcode = MLX5_CQE_INVALID then
    (none, st)
  else if mlx5dv_get_cqe_owner cqe64 ≠ expected_owner st.cq_cons_index cq.cqe_cnt then
    (none, st)
  else
    match decode_wc opcode cqe64 with
    | none => (none, st)
    | some wc =>
        let idx := (st.cq_cons_index + 1) % 4294967296
        (some wc, { cq_cons_index := idx, dbrec_ci := htobe32 (idx &&& 0xffffff) })

/-! Send-side embedding: local_write (lines 872-984) constructs a
three-segment WQE (control, remote address, data) in the next send-ring
slot and triggers the hardware through the blueflame register. -/

/-- Modelled from the spec: sizeof(struct mlx5_wqe_ctrl_seg) in the mlx5
interface header; a fixed 16-byte segment. -/
def sizeof_mlx5_wqe_ctrl_seg : Nat := 16

/-- Modelled from the spec: sizeof(struct mlx5_wqe_raddr_seg); 16 bytes. -/
def sizeof_mlx5_wqe_raddr_seg : Nat := 16

/-- Modelled from the spec: sizeof(struct mlx5_wqe_data_seg); 16 bytes. -/
def sizeof_mlx5_wqe_data_seg : Nat := 16

/-- The control segment fields as stored in ring memory (big-endian words
held as the raw values a host load would see). -/
structure CtrlSeg where
  opmod_idx_opcode : Nat
  qpn_ds : Nat
  fm_ce_se : Nat
  signature : Nat
  imm : Nat
  deriving DecidableEq

/-- Modelled from the spec: mlx5dv_set_ctrl_seg from the mlx5 interface
header packs opmod, the 16-bit producer index and the opcode into one
big-endian word, and the queue number and the descriptor size in 16-byte
units (ds) into another: htobe32((opmod << 24) | (pi << 8) | opcode) and
htobe32((qp_num << 8) | ds). The uint32 wrap of the shifts is captured by
the reduction modulo 2^32 inside htobe32. -/
def mlx5dv_set_ctrl_seg (pi opcode opmod qp_num fm_ce_se ds sig imm : Nat) :
    CtrlSeg :=
  { opmod_idx_opcode := htobe32 (opmod <<< 24 ||| pi <<< 8 ||| opcode)
    qpn_ds := htobe32 (qp_num <<< 8 ||| ds)
    fm_ce_se := fm_ce_se
    signature := sig
    imm := imm }

/-- The remote-address segment: 64-bit remote address and 32-bit remote
key, both stored big-endian (written literally at lines 940-942). -/
structure RaddrSeg where
  raddr : Nat
  rkey : Nat
  reserved : Nat
  deriving DecidableEq

/-- The data segment: local length, local key and local address, all
stored big-endian. -/
structure DataSeg where
  byte_count : Nat
  lkey : Nat
  addr : Nat
  deriving DecidableEq

/-- Modelled from the spec: mlx5dv_set_data_seg from the mlx5 interface
header stores length, lkey and address in network byte order. -/
def mlx5dv_set_data_seg (length lkey addr : Nat) : DataSeg :=
  { byte_count := htobe32 length, lkey := htobe32 lkey, addr := htobe64 addr }

/-- The three contiguous segments of the emitted remote-write WQE. -/
structure Wqe where
  ctrl : CtrlSeg
  raddr : RaddrSeg
  data : DataSeg
  deriving DecidableEq

/-- The descriptor built by local_write (lines 920-945): pi is the low
16 bits of the producer index, the opcode is MLX5_OPCODE_RDMA_WRITE, the
completion-request flag MLX5_WQE_CTRL_CQ_UPDATE is always set, and ds is
the summed size of the three segments divided by 16. -/
def local_write_wqe (sq_cur_post qp_num remote_addr rkey data_length lkey
    data_addr : Nat) : Wqe :=
  let pi := sq_cur_post &&& 0xffff
  let ds := (sizeof_mlx5_wqe_ctrl_seg + sizeof_mlx5_wqe_raddr_seg +
             sizeof_mlx5_wqe_data_seg) / 16
  let fm_ce_se := MLX5_WQE_CTRL_CQ_UPDATE
  { ctrl := mlx5dv_set_ctrl_seg pi MLX5_OPCODE_RDMA_WRITE 0 qp_num fm_ce_se ds 0 0
    raddr := { raddr := htobe64 remote_addr, rkey := htobe32 rkey, reserved := 0 }
    data := mlx5dv_set_data_seg data_length lkey data_addr }

/-- The send-ring slot index computed by local_write (line 918):
sq_cur_post % wqe_cnt. -/
def wqe_idx (sq_cur_post wqe_cnt : Nat) : Nat := sq_cur_post % wqe_cnt

/-- The blueflame trigger offset before the n-th post: it starts at 0
(resources_create, line 688) and after each post is xor-ed with the
blueflame region size (line 970). -/
def bf_offset_seq (bf_size : Nat) : Nat → Nat
  | 0 => 0
  | n + 1 => bf_offset_seq bf_size n ^^^ bf_size

/-! Arithmetic helper lemmas. -/

lemma byteswap32_lt (x : Nat) : byteswap32 x < 4294967296 := by
  unfold byteswap32; omega

lemma digits_of_word (b0 b1 b2 b3 : Nat) (h0 : b0 < 256) (h1 : b1 < 256)
    (h2 : b2 < 256) (h3 : b3 < 256) :
    (b0 * 16777216 + b1 * 65536 + b2 * 256 + b3) % 256 = b3 ∧
    (b0 * 16777216 + b1 * 65536 + b2 * 256 + b3) / 256 % 256 = b2 ∧
    (b0 * 16777216 + b1 * 65536 + b2 * 256 + b3) / 65536 % 256 = b1 ∧
    (b0 * 16777216 + b1 * 65536 + b2 * 256 + b3) / 16777216 % 256 = b0 := by
  omega

lemma byteswap32_byteswap32 {x : Nat} (h : x < 4294967296) :
    byteswap32 (byteswap32 x) = x := by
  obtain ⟨e0, e1, e2, e3⟩ :=
    digits_of_word (x % 256) (x / 256 % 256) (x / 65536 % 256) (x / 16777216 % 256)
      (Nat.mod_lt _ (by norm_num)) (Nat.mod_lt _ (by norm_num))
      (Nat.mod_lt _ (by norm_num)) (Nat.mod_lt _ (by norm_num))
  rw [byteswap32, byteswap32, e0, e1, e2, e3]
  have d1 : x / 65536 = x / 256 / 256 := by rw [Nat.div_div_eq_div_mul]
  have d2 : x / 16777216 = x / 65536 / 256 := by
    rw [d1, Nat.div_div_eq_div_mul, Nat.div_div_eq_div_mul]
  omega

lemma be32toh_htobe32 (x : Nat) : be32toh (htobe32 x) = x % 4294967296 := by
  unfold be32toh htobe32
  rw [Nat.mod_eq_of_lt (byteswap32_lt _)]
  exact byteswap32_byteswap32 (Nat.mod_lt _ (by norm_num))

lemma byteswap64_lt (x : Nat) : byteswap64 x < 18446744073709551616 := by
  unfold byteswap64
  have h1 := byteswap32_lt (x % 4294967296)
  have h2 := byteswap32_lt (x / 4294967296 % 4294967296)
  omega

lemma byteswap64_byteswap64 {x : Nat} (h : x < 18446744073709551616) :
    byteswap64 (byteswap64 x) = x := by
  have hlo : x % 4294967296 < 4294967296 := Nat.mod_lt _ (by norm_num)
  have hhi : x / 4294967296 < 4294967296 := by omega
  have b1 := byteswap32_lt (x % 4294967296)
  have b2 := byteswap32_lt (x / 4294967296 % 4294967296)
  conv_lhs => rw [byteswap64]
  rw [byteswap64]
  have hmod : (byteswap32 (x % 4294967296) * 4294967296 +
      byteswap32 (x / 4294967296 % 4294967296)) % 4294967296 =
      byteswap32 (x / 4294967296 % 4294967296) := by omega
  have hdiv : (byteswap32 (x % 4294967296) * 4294967296 +
      byteswap32 (x / 4294967296 % 4294967296)) / 4294967296 =
      byteswap32 (x % 4294967296) := by omega
  rw [hmod, hdiv, Nat.mod_eq_of_lt b1,
      byteswap32_byteswap32 (Nat.mod_lt _ (by norm_num)),
      byteswap32_byteswap32 hlo, Nat.mod_eq_of_lt hhi]
  omega

lemma be64toh_htobe64 (x : Nat) :
    be64toh (htobe64 x) = x % 18446744073709551616 := by
  unfold be64toh htobe64
  rw [Nat.mod_eq_of_lt (byteswap64_lt _)]
  exact byteswap64_byteswap64 (Nat.mod_lt _ (by norm_num))

lemma or_mod_two_pow (a b n : Nat) :
    (a ||| b) % 2 ^ n = a % 2 ^ n ||| b % 2 ^ n := by
  apply Nat.eq_of_testBit_eq
  intro i
  simp [Nat.testBit_mod_two_pow, Bool.and_or_distrib_left]

/-- Either manual_poll_cq consumes nothing and hands the state back
untouched, or it consumes one record, increments the consumer index
(uint32 wrap) and rings the doorbell with the low 24 bits of the new
index in big-endian form. -/
lemma manual_poll_cq_cases (cq : Mlx5dvCq) (mem : Nat → Mlx5Cqe64)
    (st : PollState) :
    manual_poll_cq cq mem st = (none, st) ∨
    ∃ wc, manual_poll_cq cq mem st =
      (some wc,
       { cq_cons_index := (st.cq_cons_index + 1) % 4294967296
         dbrec_ci := htobe32 ((st.cq_cons_index + 1) % 4294967296 &&& 0xffffff) }) := by
  unfold manual_poll_cq
  by_cases h1 : mlx5dv_get_cqe_opcode (mem (cqe64_addr cq st.cq_cons_index)) =
      MLX5_CQE_INVALID
  · left; simp [h1]
  · by_cases h2 : mlx5dv_get_cqe_owner (mem (cqe64_addr cq st.cq_cons_index)) ≠
        expected_owner st.cq_cons_index cq.cqe_cnt
    · left; simp [h1, h2]
    · rcases hdec : decode_wc
          (mlx5dv_get_cqe_opcode (mem (cqe64_addr cq st.cq_cons_index)))
          (mem (cqe64_addr cq st.cq_cons_index)) with _ | wc
      · left; simp [h1, h2, hdec]
      · right; exact ⟨wc, by simp [h1, h2, hdec]⟩

/-- Claim C1: for every consumer index and every power-of-two entry
count, the single-bit test used by the consume check,
expected = (index & entry_count) != 0, computes exactly the expected
ownership value floor(index / entry_count) mod 2. -/
theorem owner_polarity_single_bit_test (index k : Nat) :
    expected_owner index (2 ^ k) = index / 2 ^ k % 2 := by
  unfold expected_owner
  rw [Nat.and_two_pow, Nat.testBit_to_div_mod]
  have hp : (2 : Nat) ^ k ≠ 0 := pow_ne_zero k (by norm_num)
  by_cases h : index / 2 ^ k % 2 = 1
  · rw [h]; simp [hp]
  · have h0 : index / 2 ^ k % 2 = 0 := by omega
    rw [h0]; simp

/-- Claim C2: whenever manual_poll_cq returns no completion (invalid
sentinel opcode, ownership-bit mismatch, or unrecognized opcode), the
consumer index and the doorbell word are both left unchanged. -/
theorem no_completion_leaves_state_unchanged (cq : Mlx5dvCq)
    (mem : Nat → Mlx5Cqe64) (st : PollState)
    (h : (manual_poll_cq cq mem st).1 = none) :
    (manual_poll_cq cq mem st).2 = st := by
  rcases manual_poll_cq_cases cq mem st with hc | ⟨wc, hc⟩
  · rw [hc]
  · rw [hc] at h; simp at h

/-- Claim C2 witness: on an empty ring (invalid-sentinel opcode at the
slot, op_own = 0xf0) the poll returns none and the state is unchanged. -/
theorem no_completion_leaves_state_unchanged_witness :
    (manual_poll_cq ⟨0, 4, 64⟩ (fun _ => ⟨240, 0, 0, 0⟩) ⟨5, 7⟩).1 = none ∧
    (manual_poll_cq ⟨0, 4, 64⟩ (fun _ => ⟨240, 0, 0, 0⟩) ⟨5, 7⟩).2 = ⟨5, 7⟩ :=
  ⟨by decide,
   no_completion_leaves_state_unchanged ⟨0, 4, 64⟩ (fun _ => ⟨240, 0, 0, 0⟩) ⟨5, 7⟩
     (by decide)⟩

/-- Claim C3: on every successful consume the consumer index advances by
exactly one (uint32 arithmetic) and the doorbell word is unconditionally
written with the low 24 bits of the new index in big-endian byte order. -/
theorem consume_advances_index_and_rings_doorbell (cq : Mlx5dvCq)
    (mem : Nat → Mlx5Cqe64) (st : PollState) (wc : IbvWc)
    (h : (manual_poll_cq cq mem st).1 = some wc) :
    (manual_poll_cq cq mem st).2.cq_cons_index =
      (st.cq_cons_index + 1) % 4294967296 ∧
    (manual_poll_cq cq mem st).2.dbrec_ci =
      htobe32 ((st.cq_cons_index + 1) % 4294967296 &&& 0xffffff) := by
  rcases manual_poll_cq_cases cq mem st with hc | ⟨wc', hc⟩
  · rw [hc] at h; simp at h
  · rw [hc]; exact ⟨rfl, rfl⟩

/-- Claim C3 witness: consuming a successful send-class record at index 2
advances the index to 3 and writes htobe32(3) to the doorbell. -/
theorem consume_advances_index_and_rings_doorbell_witness :
    (manual_poll_cq ⟨0, 4, 64⟩ (fun _ => ⟨0, 0, 0, 0⟩) ⟨2, 0⟩).1 =
      some { status := 0, opcode := 0, wc_flags := 0, byte_len := 0,
             imm_data := 0, qp_num := 0 } ∧
    (manual_poll_cq ⟨0, 4, 64⟩ (fun _ => ⟨0, 0, 0, 0⟩) ⟨2, 0⟩).2.cq_cons_index =
      (2 + 1) % 4294967296 ∧
    (manual_poll_cq ⟨0, 4, 64⟩ (fun _ => ⟨0, 0, 0, 0⟩) ⟨2, 0⟩).2.dbrec_ci =
      htobe32 ((2 + 1) % 4294967296 &&& 0xffffff) :=
  ⟨by decide,
   consume_advances_index_and_rings_doorbell ⟨0, 4, 64⟩ (fun _ => ⟨0, 0, 0, 0⟩)
     ⟨2, 0⟩ ⟨0, 0, 0, 0, 0, 0⟩ (by decide)⟩

/-- Claim C6: the send-ring slot index computed by the poster,
sq_cur_post % wqe_cnt, equals the masked form
sq_cur_post & (wqe_cnt - 1) for every producer index whenever the entry
count is a power of two. -/
theorem slot_index_mod_eq_mask (sq_cur_post k : Nat) :
    wqe_idx sq_cur_post (2 ^ k) = sq_cur_post &&& (2 ^ k - 1) := by
  unfold wqe_idx
  exact (Nat.and_pow_two_sub_one_eq_mod sq_cur_post k).symm

/-- Claim C7: the completion reader computes the slot address as
base + (index & (entry_count - 1)) * entry_stride and takes the record at
byte offset 64 within the slot for 128-byte entries, and at offset 0 for
64-byte entries. -/
theorem cqe64_record_address (base cnt index : Nat) :
    cqe64_addr ⟨base, cnt, 128⟩ index =
      base + (index &&& (cnt - 1)) * 128 + 64 ∧
    cqe64_addr ⟨base, cnt, 64⟩ index =
      base + (index &&& (cnt - 1)) * 64 := by
  constructor <;> simp [cqe64_addr]

/-- The trigger offset alternates: it is 0 before even-numbered posts and
bf_size before odd-numbered posts. -/
lemma bf_offset_seq_alternates (bf_size : Nat) :
    ∀ n, bf_offset_seq bf_size n = if n % 2 = 0 then 0 else bf_size := by
  intro n
  induction n with
  | zero => simp [bf_offset_seq]
  | succ n ih =>
    rw [bf_offset_seq, ih]
    by_cases h : n % 2 = 0
    · rw [if_pos h, if_neg (by omega), Nat.zero_xor]
    · rw [if_neg h, if_pos (by omega), Nat.xor_self]

/-- Claim C5: starting from trigger offset 0, each post flips the offset
by xor with the blueflame region size, so consecutive posts use the two
distinct configured offsets (0 and bf_size) and never the same offset
twice in a row (given a nonzero region size, which resources_create
requires). -/
theorem trigger_offset_alternation (bf_size : Nat) (h : bf_size ≠ 0)
    (n : Nat) :
    bf_offset_seq bf_size (n + 1) ≠ bf_offset_seq bf_size n ∧
    (bf_offset_seq bf_size n = 0 ∨ bf_offset_seq bf_size n = bf_size) ∧
    (bf_offset_seq bf_size (n + 1) = 0 ∨
      bf_offset_seq bf_size (n + 1) = bf_size) := by
  rw [bf_offset_seq_alternates, bf_offset_seq_alternates]
  by_cases hn : n % 2 = 0
  · rw [if_pos hn, if_neg (by omega)]
    exact ⟨fun hc => h hc, Or.inl rfl, Or.inr rfl⟩
  · rw [if_neg hn, if_pos (by omega)]
    exact ⟨fun hc => h hc.symm, Or.inr rfl, Or.inl rfl⟩

/-- Claim C5 witness: with the 256-byte blueflame region of the example
run, posts 0 and 1 use offsets 0 and 256. -/
theorem trigger_offset_alternation_witness :
    (256 : Nat) ≠ 0 ∧
    (bf_offset_seq 256 (0 + 1) ≠ bf_offset_seq 256 0 ∧
     (bf_offset_seq 256 0 = 0 ∨ bf_offset_seq 256 0 = 256) ∧
     (bf_offset_seq 256 (0 + 1) = 0 ∨ bf_offset_seq 256 (0 + 1) = 256)) :=
  ⟨by decide, trigger_offset_alternation 256 (by decide) 0⟩

/-- Claim C4: the remote-write descriptor emitted by local_write has its
ds field (low byte of the decoded qpn_ds word) equal to the three
segments' total byte size divided by 16, its remote address stored
big-endian so that decoding recovers the original host-order address,
and the completion-request flag set in fm_ce_se. -/
theorem local_write_descriptor_fields (sq_cur_post qp_num remote_addr rkey
    data_length lkey data_addr : Nat)
    (h64 : remote_addr < 18446744073709551616) :
    be32toh (local_write_wqe sq_cur_post qp_num remote_addr rkey data_length
        lkey data_addr).ctrl.qpn_ds &&& 0xff =
      (sizeof_mlx5_wqe_ctrl_seg + sizeof_mlx5_wqe_raddr_seg +
        sizeof_mlx5_wqe_data_seg) / 16 ∧
    be64toh (local_write_wqe sq_cur_post qp_num remote_addr rkey data_length
        lkey data_addr).raddr.raddr = remote_addr ∧
    (local_write_wqe sq_cur_post qp_num remote_addr rkey data_length
        lkey data_addr).ctrl.fm_ce_se &&& MLX5_WQE_CTRL_CQ_UPDATE ≠ 0 := by
  refine ⟨?_, ?_, ?_⟩
  · show be32toh (htobe32 (qp_num <<< 8 |||
        (sizeof_mlx5_wqe_ctrl_seg + sizeof_mlx5_wqe_raddr_seg +
          sizeof_mlx5_wqe_data_seg) / 16)) &&& 0xff = _
    rw [be32toh_htobe32]
    show (qp_num <<< 8 ||| 3) % 4294967296 &&& 0xff = 3
    rw [show (4294967296 : Nat) = 2 ^ 32 from rfl,
        show (0xff : Nat) = 2 ^ 8 - 1 from rfl,
        Nat.and_pow_two_sub_one_eq_mod,
        Nat.mod_mod_of_dvd _ (by norm_num : (2 : Nat) ^ 8 ∣ 2 ^ 32),
        or_mod_two_pow, Nat.shiftLeft_eq]
    norm_num [Nat.mul_mod_left]
  · show be64toh (htobe64 remote_addr) = remote_addr
    rw [be64toh_htobe64, Nat.mod_eq_of_lt h64]
  · show MLX5_WQE_CTRL_CQ_UPDATE &&& MLX5_WQE_CTRL_CQ_UPDATE ≠ 0
    decide

/-- Claim C4 witness: a 4-byte remote write posted at producer index 0
with remote address 0x21f490b4 shows ds = 3, a recoverable remote
address, and the completion-request flag. -/
theorem local_write_descriptor_fields_witness :
    (0x21f490b4 : Nat) < 18446744073709551616 ∧
    (be32toh (local_write_wqe 0 0x12d 0x21f490b4 0x1ff0af 4 0x1ff0af
        0x21f490b0).ctrl.qpn_ds &&& 0xff =
      (sizeof_mlx5_wqe_ctrl_seg + sizeof_mlx5_wqe_raddr_seg +
        sizeof_mlx5_wqe_data_seg) / 16 ∧
    be64toh (local_write_wqe 0 0x12d 0x21f490b4 0x1ff0af 4 0x1ff0af
        0x21f490b0).raddr.raddr = 0x21f490b4 ∧
    (local_write_wqe 0 0x12d 0x21f490b4 0x1ff0af 4 0x1ff0af
        0x21f490b0).ctrl.fm_ce_se &&& MLX5_WQE_CTRL_CQ_UPDATE ≠ 0) :=
  ⟨by decide,
   local_write_descriptor_fields 0 0x12d 0x21f490b4 0x1ff0af 4 0x1ff0af
     0x21f490b0 (by decide)⟩

/-- Claim C8 counterexample: a request-error record (op_own = 0xd0,
byte_cnt raw word 1) is consumed with failed status, yet its
transferred-length field IS decoded into the returned completion
(byte_len = be32toh(byte_cnt) = 16777216 ≠ 0, not the zeroed value the
claim requires), because manual_poll_cq fills byte_len before the opcode
switch. -/
theorem error_path_length_decoded_counterexample :
    ((manual_poll_cq ⟨0, 4, 64⟩ (fun _ => ⟨208, 0, 1, 0⟩) ⟨0, 0⟩).1).map
        IbvWc.status = some IBV_WC_GENERAL_ERR ∧
    ((manual_poll_cq ⟨0, 4, 64⟩ (fun _ => ⟨208, 0, 1, 0⟩) ⟨0, 0⟩).1).map
        IbvWc.byte_len = some 16777216 ∧
    (16777216 : Nat) ≠ 0 := by decide

/-- Claim C8 (amended): on a request-error or response-error record the
result is marked failed and the immediate field is not decoded (it stays
at the zeroed value), but the transferred-length field is decoded into
the returned completion unconditionally before classification. -/
theorem error_completion_decode (cq : Mlx5dvCq) (mem : Nat → Mlx5Cqe64)
    (st : PollState) (c : Mlx5Cqe64)
    (hc : mem (cqe64_addr cq st.cq_cons_index) = c)
    (hop : mlx5dv_get_cqe_opcode c = MLX5_CQE_REQ_ERR ∨
           mlx5dv_get_cqe_opcode c = MLX5_CQE_RESP_ERR)
    (hown : mlx5dv_get_cqe_owner c = expected_owner st.cq_cons_index cq.cqe_cnt) :
    (manual_poll_cq cq mem st).1 =
      some { status := IBV_WC_GENERAL_ERR, opcode := 0, wc_flags := 0,
             byte_len := be32toh c.byte_cnt, imm_data := 0,
             qp_num := be32toh c.sop_drop_qpn &&& 0xffffff } := by
  unfold manual_poll_cq decode_wc
  rcases hop with h | h <;>
    simp [hc, h, hown, MLX5_CQE_REQ_ERR, MLX5_CQE_RESP_ERR, MLX5_CQE_INVALID,
          MLX5_CQE_REQ, MLX5_CQE_RESP_SEND, MLX5_CQE_RESP_SEND_IMM,
          MLX5_CQE_RESP_WR_IMM]

/-- Claim C8 (amended) witness: a response-error record (op_own = 0xe0)
with raw byte_cnt 2 yields a failed completion whose byte_len is the
decoded 33554432 and whose imm_data stays 0. -/
theorem error_completion_decode_witness :
    ((fun _ => (⟨224, 0, 2, 0⟩ : Mlx5Cqe64)) (cqe64_addr ⟨0, 4, 64⟩ 1) =
      (⟨224, 0, 2, 0⟩ : Mlx5Cqe64)) ∧
    (mlx5dv_get_cqe_opcode ⟨224, 0, 2, 0⟩ = MLX5_CQE_REQ_ERR ∨
     mlx5dv_get_cqe_opcode ⟨224, 0, 2, 0⟩ = MLX5_CQE_RESP_ERR) ∧
    (mlx5dv_get_cqe_owner ⟨224, 0, 2, 0⟩ = expected_owner 1 4) ∧
    (manual_poll_cq ⟨0, 4, 64⟩ (fun _ => ⟨224, 0, 2, 0⟩) ⟨1, 0⟩).1 =
      some { status := IBV_WC_GENERAL_ERR, opcode := 0, wc_flags := 0,
             byte_len := be32toh 2, imm_data := 0,
             qp_num := be32toh 0 &&& 0xffffff } :=
  ⟨rfl, by decide, by decide,
   error_completion_decode ⟨0, 4, 64⟩ (fun _ => ⟨224, 0, 2, 0⟩) ⟨1, 0⟩
     ⟨224, 0, 2, 0⟩ rfl (by decide) (by decide)⟩

/-- Claim C10: a consumable request-error or response-error record is
consumed exactly like a successful one with respect to ring state: some
completion is returned, the consumer index advances by one and the
doorbell word is written with the new index. -/
theorem error_completion_advances_ring (cq : Mlx5dvCq)
    (mem : Nat → Mlx5Cqe64) (st : PollState) (c : Mlx5Cqe64)
    (hc : mem (cqe64_addr cq st.cq_cons_index) = c)
    (hop : mlx5dv_get_cqe_opcode c = MLX5_CQE_REQ_ERR ∨
           mlx5dv_get_cqe_opcode c = MLX5_CQE_RESP_ERR)
    (hown : mlx5dv_get_cqe_owner c = expected_owner st.cq_cons_index cq.cqe_cnt) :
    (∃ wc, (manual_poll_cq cq mem st).1 = some wc) ∧
    (manual_poll_cq cq mem st).2 =
      { cq_cons_index := (st.cq_cons_index + 1) % 4294967296
        dbrec_ci := htobe32 ((st.cq_cons_index + 1) % 4294967296 &&& 0xffffff) } := by
  unfold manual_poll_cq decode_wc
  rcases hop with h | h <;>
    simp [hc, h, hown, MLX5_CQE_REQ_ERR, MLX5_CQE_RESP_ERR, MLX5_CQE_INVALID,
          MLX5_CQE_REQ, MLX5_CQE_RESP_SEND, MLX5_CQE_RESP_SEND_IMM,
          MLX5_CQE_RESP_WR_IMM]

/-- Claim C10 witness: a request-error record at consumer index 4 of a
4-entry ring (second lap, op_own = 0xd1 carrying ownership bit 1) is
consumed: the index advances to 5 and the doorbell receives htobe32(5). -/
theorem error_completion_advances_ring_witness :
    ((fun _ => (⟨209, 0, 0, 0⟩ : Mlx5Cqe64)) (cqe64_addr ⟨0, 4, 64⟩ 4) =
      (⟨209, 0, 0, 0⟩ : Mlx5Cqe64)) ∧
    (mlx5dv_get_cqe_opcode ⟨209, 0, 0, 0⟩ = MLX5_CQE_REQ_ERR ∨
     mlx5dv_get_cqe_opcode ⟨209, 0, 0, 0⟩ = MLX5_CQE_RESP_ERR) ∧
    (mlx5dv_get_cqe_owner ⟨209, 0, 0, 0⟩ = expected_owner 4 4) ∧
    ((∃ wc, (manual_poll_cq ⟨0, 4, 64⟩ (fun _ => ⟨209, 0, 0, 0⟩) ⟨4, 0⟩).1 =
        some wc) ∧
     (manual_poll_cq ⟨0, 4, 64⟩ (fun _ => ⟨209, 0, 0, 0⟩) ⟨4, 0⟩).2 =
       { cq_cons_index := (4 + 1) % 4294967296
         dbrec_ci := htobe32 ((4 + 1) % 4294967296 &&& 0xffffff) }) :=
  ⟨rfl, by decide, by decide,
   error_completion_advances_ring ⟨0, 4, 64⟩ (fun _ => ⟨209, 0, 0, 0⟩) ⟨4, 0⟩
     ⟨209, 0, 0, 0⟩ rfl (by decide) (by decide)⟩

/-- Claim C9: a consumable request-success record whose embedded
sub-opcode (high byte of the decoded queue field) is none of the known
send/write/read sub-codes is not skipped: it is consumed (index advanced,
doorbell written) and reported as a successful send-class completion via
the default mapping. -/
theorem unknown_subcode_consumed_as_send (cq : Mlx5dvCq)
    (mem : Nat → Mlx5Cqe64) (st : PollState) (c : Mlx5Cqe64)
    (hc : mem (cqe64_addr cq st.cq_cons_index) = c)
    (hop : mlx5dv_get_cqe_opcode c = MLX5_CQE_REQ)
    (hown : mlx5dv_get_cqe_owner c = expected_owner st.cq_cons_index cq.cqe_cnt)
    (hsub : be32toh c.sop_drop_qpn / 16777216 ∉
      ([MLX5_OPCODE_RDMA_WRITE, MLX5_OPCODE_RDMA_WRITE_IMM, MLX5_OPCODE_SEND,
        MLX5_OPCODE_SEND_IMM, MLX5_OPCODE_SEND_INVAL,
        MLX5_OPCODE_RDMA_READ] : List Nat)) :
    (manual_poll_cq cq mem st).1 =
      some { status := IBV_WC_SUCCESS, opcode := IBV_WC_SEND, wc_flags := 0,
             byte_len := be32toh c.byte_cnt, imm_data := 0,
             qp_num := be32toh c.sop_drop_qpn &&& 0xffffff } ∧
    (manual_poll_cq cq mem st).2 =
      { cq_cons_index := (st.cq_cons_index + 1) % 4294967296
        dbrec_ci := htobe32 ((st.cq_cons_index + 1) % 4294967296 &&& 0xffffff) } := by
  simp only [List.mem_cons, List.not_mem_nil, or_false, not_or] at hsub
  obtain ⟨h1, h2, h3, h4, h5, h6⟩ := hsub
  unfold manual_poll_cq decode_wc
  simp [hc, hop, hown, h1, h2, h3, h4, h5, h6, MLX5_CQE_REQ, MLX5_CQE_INVALID]

/-- Claim C9 witness: a request-success record with unknown sub-opcode 5
(raw queue word 5, so the decoded high byte is 5) at consumer index 0 is
consumed as a successful send and the ring state advances. -/
theorem unknown_subcode_consumed_as_send_witness :
    ((fun _ => (⟨0, 5, 2, 0⟩ : Mlx5Cqe64)) (cqe64_addr ⟨0, 8, 64⟩ 0) =
      (⟨0, 5, 2, 0⟩ : Mlx5Cqe64)) ∧
    (mlx5dv_get_cqe_opcode ⟨0, 5, 2, 0⟩ = MLX5_CQE_REQ) ∧
    (mlx5dv_get_cqe_owner ⟨0, 5, 2, 0⟩ = expected_owner 0 8) ∧
    (be32toh (5 : Nat) / 16777216 ∉
      ([MLX5_OPCODE_RDMA_WRITE, MLX5_OPCODE_RDMA_WRITE_IMM, MLX5_OPCODE_SEND,
        MLX5_OPCODE_SEND_IMM, MLX5_OPCODE_SEND_INVAL,
        MLX5_OPCODE_RDMA_READ] : List Nat)) ∧
    ((manual_poll_cq ⟨0, 8, 64⟩ (fun _ => ⟨0, 5, 2, 0⟩) ⟨0, 3⟩).1 =
      some { status := IBV_WC_SUCCESS, opcode := IBV_WC_SEND, wc_flags := 0,
             byte_len := be32toh 2, imm_data := 0,
             qp_num := be32toh 5 &&& 0xffffff } ∧
     (manual_poll_cq ⟨0, 8, 64⟩ (fun _ => ⟨0, 5, 2, 0⟩) ⟨0, 3⟩).2 =
       { cq_cons_index := (0 + 1) % 4294967296
         dbrec_ci := htobe32 ((0 + 1) % 4294967296 &&& 0xffffff) }) :=
  ⟨rfl, by decide, by decide, by decide,
   unknown_subcode_consumed_as_send ⟨0, 8, 64⟩ (fun _ => ⟨0, 5, 2, 0⟩) ⟨0, 3⟩
     ⟨0, 5, 2, 0⟩ rfl (by decide) (by decide) (by decide)⟩

end ManualTrigger
